import Mathlib

/-
Verification development for the LTBox device-control core
(src/ltbox/device.py and src/ltbox/utils.py).

The Python code is shallowly embedded: each relevant Python function
becomes a Lean function.  External effects (running a subprocess,
enumerating serial ports, the poll loop of a detector) are made explicit:
an `Env` record supplies the outcome of every external interaction, and
functions additionally return the list of command invocations they
attempted, so that ordering / short-circuit properties can be stated.
Fallible Python code returns `Except PyErr`; a result of `none` in an
`Option (Except ...)` models divergence of an unbounded poll loop.
-/

/-- Python exception values relevant to the embedded code. -/
inductive PyErr where
  | fileNotFound (msg : String)
  | calledProcessError (code : Int) (stdout stderr : Option String)
  | typeError (msg : String)
  deriving DecidableEq, Repr

/-- Outcome of the operating system actually executing a command:
either the executable cannot be found (Python raises FileNotFoundError
from `subprocess.run`), or the process completes with an exit code and
output streams. -/
inductive ExecResult where
  | notFound (filename : String)
  | completed (code : Int) (stdout stderr : String)
  deriving DecidableEq, Repr

/-- `subprocess.CompletedProcess` as returned by `subprocess.run` with
`text=True`: the `stdout`/`stderr` attributes are `None` unless
`capture_output=True` was passed. -/
structure CompletedProcess where
  stdout : Option String
  stderr : Option String
  returncode : Int
  deriving DecidableEq, Repr

/-- One entry of `serial.tools.list_ports.comports()`: `description` and
`hwid` may be `None` in pyserial, hence `Option String`. -/
structure PortInfo where
  device : String
  description : Option String
  hwid : Option String
  deriving DecidableEq, Repr

/-- The `DeviceController` configuration (the `lang` dictionary only
changes message text and is omitted). -/
structure Ctl where
  skipAdb : Bool
  deriving DecidableEq, Repr

/-- The external world: what executing a given command does, what the
serial-port enumeration yields (or the exception it raises), whether the
two EDL tool executables exist, and the successive results of polling
for the loader file. -/
structure Env where
  exec : List String → ExecResult
  ports : Except PyErr (List PortInfo)
  qsaharaExists : Bool
  fhLoaderExists : Bool
  loaderPolls : List Bool

/-- Modelled from the spec: `ltbox/constants.py` is not under src/; the
spec only says the tools live under fixed tool/download directories, so
the executable paths are fixed opaque strings. -/
def ADB_EXE : String := "tools/adb.exe"

/-- Modelled from the spec: fixed path of the Fastboot tool. -/
def FASTBOOT_EXE : String := "tools/fastboot.exe"

/-- Modelled from the spec: fixed path of the Sahara-upload tool. -/
def QSAHARASERVER_EXE : String := "tools/QSaharaServer.exe"

/-- Modelled from the spec: fixed path of the Firehose loader tool. -/
def FH_LOADER_EXE : String := "tools/fh_loader.exe"

def ADB_WAIT_CMD : List String := [ADB_EXE, "wait-for-device"]

def ADB_REBOOT_EDL_CMD : List String := [ADB_EXE, "reboot", "edl"]

def ADB_REBOOT_BL_CMD : List String := [ADB_EXE, "reboot", "bootloader"]

def FB_DEVICES_CMD : List String := [FASTBOOT_EXE, "devices"]

def FB_GETVAR_ALL_CMD : List String := [FASTBOOT_EXE, "getvar", "all"]

def FB_REBOOT_CMD : List String := [FASTBOOT_EXE, "reboot"]

/-- Python's whitespace class for `str.strip` / the regex class `\s`. -/
def pyIsSpace (c : Char) : Bool :=
  c = ' ' || c = '\t' || c = '\n' || c = '\r' || c = '\x0b' || c = '\x0c'

/-- Python `str.strip()` (no argument): drop whitespace from both ends. -/
def pyStrip (s : String) : String :=
  String.mk (((s.data.dropWhile pyIsSpace).reverse.dropWhile pyIsSpace).reverse)

/-- Python truthiness of a string: nonempty. -/
def pyTruthyStr (s : String) : Bool := !s.data.isEmpty

/-- Python truthiness of an optional string attribute (`None` and `""`
are falsy). -/
def pyTruthyOpt : Option String → Bool
  | none => false
  | some s => pyTruthyStr s

/-- Python `pat in hay` substring test, on the character lists. -/
def listContainsSub : List Char → List Char → Bool
  | [], pat => pat.isEmpty
  | h :: hs, pat => pat.isPrefixOf (h :: hs) || listContainsSub hs pat

/-- Python `pat in hay` on strings. -/
def containsSub (hay pat : String) : Bool := listContainsSub hay.data pat.data

/-- Python `str.upper()` (ASCII case mapping suffices for the inputs the
code compares). -/
def pyUpper (s : String) : String := String.mk (s.data.map Char.toUpper)

/-- utils.run_command: runs a command with the tool directories prepended
to PATH, `check` deciding whether a non-zero exit raises
CalledProcessError, `capture` deciding `capture_output`.  Besides the
Python result (`Except` of the raised exception or the CompletedProcess)
the model records what run_command itself prints: `echoedOut` are the
lines printed to sys.stdout, `echoedErr` those printed to sys.stderr. -/
structure RunOutput where
  result : Except PyErr CompletedProcess
  echoedOut : List String
  echoedErr : List String
  deriving Repr

def run_command (env : Env) (cmd : List String) (check capture : Bool) : RunOutput :=
  match env.exec cmd with
  | .notFound f =>
    { result := .error (.fileNotFound f)
      echoedOut := []
      echoedErr := ["Error: Command not found - " ++ f] }
  | .completed code out err =>
    if check && !(code == 0) then
      -- subprocess.run raises CalledProcessError; its stdout/stderr
      -- attributes are populated only when capture_output was requested.
      let eOut : Option String := if capture then some out else none
      let eErr : Option String := if capture then some err else none
      { result := .error (.calledProcessError code eOut eErr)
        echoedOut := []
        echoedErr :=
          ["Error executing command: " ++ String.intercalate " " cmd,
           "Return code: " ++ toString code]
          ++ (if pyTruthyOpt eOut then ["Stdout:\n" ++ pyStrip out] else [])
          ++ (if pyTruthyOpt eErr then ["Stderr:\n" ++ pyStrip err] else []) }
    else
      let p : CompletedProcess :=
        { stdout := if capture then some out else none
          stderr := if capture then some err else none
          returncode := code }
      { result := .ok p
        echoedOut :=
          if !capture && pyTruthyOpt p.stdout then [pyStrip (p.stdout.getD "")] else []
        echoedErr :=
          if !capture && pyTruthyOpt p.stderr then [pyStrip (p.stderr.getD "")] else [] }

/-- True when executing `cmd` in `env` completes with exit code 0. -/
def execOkB (env : Env) (cmd : List String) : Bool :=
  match env.exec cmd with
  | .completed code _ _ => code == 0
  | .notFound _ => false

/-- DeviceController.check_edl_device, the per-port classification:
`(port.description and "Qualcomm" in port.description and "9008" in
port.description) or (port.hwid and "VID:PID=05C6:9008" in
port.hwid.upper())`. -/
def is_qualcomm_port (p : PortInfo) : Bool :=
  (pyTruthyOpt p.description &&
    (containsSub (p.description.getD "") "Qualcomm" &&
     containsSub (p.description.getD "") "9008")) ||
  (pyTruthyOpt p.hwid &&
    containsSub (pyUpper (p.hwid.getD "")) "VID:PID=05C6:9008")

/-- DeviceController.check_edl_device, the scan over the enumerated
ports: first matching port's device path. -/
def check_edl_device : List PortInfo → Option String
  | [] => none
  | p :: ps => if is_qualcomm_port p then some p.device else check_edl_device ps

/-- DeviceController.check_edl_device including its `except Exception`
handler: any exception from the port enumeration yields None. -/
def check_edl_device_caught (r : Except PyErr (List PortInfo)) : Option String :=
  match r with
  | .error _ => none
  | .ok ports => check_edl_device ports

/-- Formalisation of the spec sentence for `find_edl_port` (section 4.2,
written from the spec's words, for comparison with the code): the first
port where EITHER the description contains both "Qualcomm" and "9008"
(case-sensitive) OR the hardware id, upper-cased, contains the literal
substring "VID:PID=05C6:9008". -/
def find_edl_port_pred (p : PortInfo) : Bool :=
  (containsSub (p.description.getD "") "Qualcomm" &&
   containsSub (p.description.getD "") "9008") ||
  containsSub (pyUpper (p.hwid.getD "")) "VID:PID=05C6:9008"

/-- Spec-side find_edl_port: first match wins. -/
def find_edl_port (ports : List PortInfo) : Option String :=
  (ports.find? find_edl_port_pred).map (fun p => p.device)

/-- DeviceController.check_fastboot_device: runs `fastboot devices`
capturing output with check=False; a nonempty stripped stdout means a
device is present; any exception yields False. -/
def check_fastboot_device (env : Env) : Bool :=
  match (run_command env FB_DEVICES_CMD false true).result with
  | .error _ => false
  | .ok p => pyTruthyStr (pyStrip (p.stdout.getD ""))

/-- DeviceController.wait_for_adb: no-op under skip_adb, otherwise runs
`adb wait-for-device` and re-raises any failure.  The second component
is the list of commands that were executed. -/
def wait_for_adb (ctl : Ctl) (env : Env) : Except PyErr Unit × List (List String) :=
  if ctl.skipAdb then (.ok (), [])
  else
    match (run_command env ADB_WAIT_CMD true false).result with
    | .error e => (.error e, [ADB_WAIT_CMD])
    | .ok _ => (.ok (), [ADB_WAIT_CMD])

/-- DeviceController.reboot_to_edl: waits for ADB (errors propagate),
returns early under skip_adb, otherwise runs `adb reboot edl` and
swallows any failure of that command. -/
def reboot_to_edl (ctl : Ctl) (env : Env) : Except PyErr Unit × List (List String) :=
  match wait_for_adb ctl env with
  | (.error e, t) => (.error e, t)
  | (.ok _, t) =>
    if ctl.skipAdb then (.ok (), t)
    else (.ok (), t ++ [ADB_REBOOT_EDL_CMD])

/-- DeviceController.reboot_to_bootloader: like reboot_to_edl but the
`except` block re-raises the failure of `adb reboot bootloader`. -/
def reboot_to_bootloader (ctl : Ctl) (env : Env) : Except PyErr Unit × List (List String) :=
  match wait_for_adb ctl env with
  | (.error e, t) => (.error e, t)
  | (.ok _, t) =>
    if ctl.skipAdb then (.ok (), t)
    else
      match (run_command env ADB_REBOOT_BL_CMD true false).result with
      | .error e => (.error e, t ++ [ADB_REBOOT_BL_CMD])
      | .ok _ => (.ok (), t ++ [ADB_REBOOT_BL_CMD])

/-- DeviceController.fastboot_reboot_system: runs `fastboot reboot` and
swallows every failure; only the executed command is observable. -/
def fastboot_reboot_system (_env : Env) : List (List String) := [FB_REBOOT_CMD]

/-- DeviceController.wait_for_edl, abstracted over the successive
results of check_edl_device (one list entry per detector invocation).
Returns `(port, detector calls, sleeps)`; `none` models the loop running
out of detector results, i.e. polling forever.  The code performs one
initial (non-silent) check before the while loop; inside the loop each
failed condition check is followed by one `time.sleep(2)`. -/
def wait_loop_edl : List (Option String) → Option (String × Nat × Nat)
  | [] => none
  | some v :: _ => some (v, 1, 0)
  | none :: rest => (wait_loop_edl rest).map (fun r => (r.1, r.2.1 + 1, r.2.2 + 1))

def wait_for_edl : List (Option String) → Option (String × Nat × Nat)
  | [] => none
  | some v :: _ => some (v, 1, 0)
  | none :: rest => (wait_loop_edl rest).map (fun r => (r.1, r.2.1 + 1, r.2.2))

/-- DeviceController.wait_for_fastboot, abstracted the same way over the
successive boolean results of check_fastboot_device.  The function
always returns True on success, so the model returns
`(detector calls, sleeps)` with `some` standing for "returned True". -/
def wait_loop_fastboot : List Bool → Option (Nat × Nat)
  | [] => none
  | true :: _ => some (1, 0)
  | false :: rest => (wait_loop_fastboot rest).map (fun r => (r.1 + 1, r.2 + 1))

def wait_for_fastboot : List Bool → Option (Nat × Nat)
  | [] => none
  | true :: _ => some (1, 0)
  | false :: rest => (wait_loop_fastboot rest).map (fun r => (r.1 + 1, r.2))

/-- DeviceController.get_active_slot_suffix, given the raw stdout of
`adb shell getprop ro.boot.slot_suffix`: strip it, accept only "_a" or
"_b", otherwise warn (second component) and return None. -/
def get_active_slot_suffix (raw : String) : Option String × Bool :=
  let suffix := pyStrip raw
  if suffix = "_a" || suffix = "_b" then (some suffix, false) else (none, true)

/-- The regex `current-slot:\s*([a-z]+)` used by
get_active_slot_suffix_from_fastboot. -/
def slotPattern : List Char := "current-slot:".data

def isLowerLetter (c : Char) : Bool := 'a' ≤ c && c ≤ 'z'

/-- Try the pattern anchored at the head of the character list.  Since
`\s` and `[a-z]` are disjoint, the greedy `\s*` never needs to
backtrack. -/
def matchSlotAt (cs : List Char) : Option (List Char) :=
  if slotPattern.isPrefixOf cs then
    let rest := (cs.drop slotPattern.length).dropWhile pyIsSpace
    let slot := rest.takeWhile isLowerLetter
    if slot.isEmpty then none else some slot
  else none

/-- `re.search`: leftmost starting position at which the pattern
matches. -/
def searchSlot : List Char → Option (List Char)
  | [] => none
  | c :: cs =>
    match matchSlotAt (c :: cs) with
    | some s => some s
    | none => searchSlot cs

/-- DeviceController.get_active_slot_suffix_from_fastboot, given the
captured stdout and stderr of `fastboot getvar current-slot`: search
`stderr.strip() + "\n" + stdout.strip()` for the slot, accept bare "a"
or "b" and prefix an underscore; anything else is None. -/
def get_active_slot_suffix_from_fastboot (stdout stderr : String) : Option String :=
  let output := pyStrip stderr ++ "\n" ++ pyStrip stdout
  match searchSlot output.data with
  | some slotChars =>
    let slot := pyStrip (String.mk slotChars)
    if slot = "a" || slot = "b" then some ("_" ++ slot) else none
  | none => none

/-- utils.wait_for_files signature: def wait_for_files(directory,
required_files, prompt_message).  It accepts no other parameter. -/
def wait_for_files_params : List String := ["directory", "required_files", "prompt_message"]

/-- The body of utils.wait_for_files, abstracted over the successive
results of the file-presence check: returns True once the files are
present, polls forever (`none`) otherwise. -/
def wait_for_files_model (polls : List Bool) : Option (Except PyErr Bool) :=
  if polls.contains true then some (.ok true) else none

def WAIT_FOR_FILES_TYPE_ERR : String :=
  "wait_for_files got an unexpected keyword argument lang"

/-- Python call semantics for `utils.wait_for_files(a, b, c, **kwargs)`:
the three positional arguments bind all three parameters, so any keyword
argument left over raises TypeError before the body runs. -/
def call_wait_for_files (kwargNames : List String)
    (body : Option (Except PyErr Bool)) : Option (Except PyErr Bool) :=
  if kwargNames.all (fun k => (wait_for_files_params.drop 3).contains k) then body
  else some (.error (.typeError WAIT_FOR_FILES_TYPE_ERR))

/-- DeviceController.setup_edl_connection up to the loader-file wait:
the entry check decides whether the ADB reboot step runs at all. -/
def setup_pre (ctl : Ctl) (env : Env) : Except PyErr Unit × List (List String) :=
  match check_edl_device_caught env.ports with
  | some _ => (.ok (), [])
  | none =>
    if ctl.skipAdb then
      reboot_to_edl ctl env
    else
      match wait_for_adb ctl env with
      | (.error e, t) => (.error e, t)
      | (.ok _, t1) =>
        let r := reboot_to_edl ctl env
        (r.1, t1 ++ r.2)

/-- DeviceController.setup_edl_connection.  After the reboot/skip
decision it calls `utils.wait_for_files(IMAGE_DIR, required_files,
prompt, lang=self.lang)` — with the extra `lang` keyword — and would
then poll for the EDL port (with a fixed environment the final
wait_for_edl either succeeds at once or polls forever). -/
def setup_edl_connection (ctl : Ctl) (env : Env) :
    Option (Except PyErr String) × List (List String) :=
  match setup_pre ctl env with
  | (.error e, t) => (some (.error e), t)
  | (.ok _, t) =>
    match call_wait_for_files ["lang"] (wait_for_files_model env.loaderPolls) with
    | some (.error e) => (some (.error e), t)
    | some (.ok _) =>
      match check_edl_device_caught env.ports with
      | some port => (some (.ok port), t)
      | none => (none, t)
    | none => (none, t)

/-- DeviceController.get_fastboot_vars: reboot to bootloader (unless
skip_adb, where the operator is prompted), wait for fastboot, read
`fastboot getvar all` capturing both streams with check=False, then
reboot back to system best-effort (unless skip_adb); a failure of the
variable read triggers the same best-effort reboot and is re-raised. -/
def get_fastboot_vars (ctl : Ctl) (env : Env) :
    Option (Except PyErr String) × List (List String) :=
  let pre : Except PyErr Unit × List (List String) :=
    if ctl.skipAdb then (.ok (), [])
    else
      match reboot_to_bootloader ctl env with
      | (.error e, t) => (.error e, t)
      | (.ok _, t) => (.ok (), t)
  match pre with
  | (.error e, t) => (some (.error e), t)
  | (.ok _, t) =>
    if check_fastboot_device env then
      let ro := run_command env FB_GETVAR_ALL_CMD false true
      let t2 := t ++ [FB_DEVICES_CMD, FB_GETVAR_ALL_CMD]
      match ro.result with
      | .error e =>
        if ctl.skipAdb then (some (.error e), t2)
        else (some (.error e), t2 ++ fastboot_reboot_system env)
      | .ok p =>
        let output := p.stdout.getD "" ++ "\n" ++ p.stderr.getD ""
        if ctl.skipAdb then (some (.ok output), t2)
        else (some (.ok output), t2 ++ fastboot_reboot_system env)
    else (none, t ++ [FB_DEVICES_CMD])

/-- The Sahara invocation built by load_firehose_programmer: the port in
raw device-path form and the protocol/image-type code 13 paired with the
loader path. -/
def saharaCmd (loader port : String) : List String :=
  [QSAHARASERVER_EXE, "-p", "\\\\.\\" ++ port, "-s", "13:" ++ loader]

/-- DeviceController.load_firehose_programmer: FileNotFoundError when
the Sahara-upload executable is absent, otherwise run the invocation
with check=True; a CalledProcessError is printed with guidance and
re-raised, any other failure propagates. -/
def load_firehose_programmer (env : Env) (loader port : String) :
    Except PyErr Unit × List (List String) :=
  if env.qsaharaExists then
    match (run_command env (saharaCmd loader port) true false).result with
    | .error e => (.error e, [saharaCmd loader port])
    | .ok _ => (.ok (), [saharaCmd loader port])
  else
    (.error (.fileNotFound ("QSaharaServer.exe not found at " ++ QSAHARASERVER_EXE)), [])

/-- Python `Path(p).name`: the component after the last path separator. -/
def baseName (p : String) : String :=
  String.mk (p.data.foldl (fun acc c => if c = '/' || c = '\\' then [] else acc ++ [c]) [])

/-- Python `Path(p).parent` as a string: everything before the last
separator, or "." when there is none. -/
def parentDir (p : String) : String :=
  let n := (baseName p).data.length
  if n = p.data.length then "." else String.mk (p.data.take (p.data.length - n - 1))

/-- The Firehose flashing invocation built by edl_rawprogram (STEP 2/2). -/
def fhFlashCmd (searchPath rawXmlStr patchXmlStr memType port : String) : List String :=
  [FH_LOADER_EXE,
   "--port=" ++ ("\\\\.\\" ++ port),
   "--search_path=" ++ searchPath,
   "--sendxml=" ++ rawXmlStr,
   "--sendxml=" ++ patchXmlStr,
   "--setactivepartition=1",
   "--memoryname=" ++ memType,
   "--showpercentagecomplete",
   "--zlpawarehost=1",
   "--noprompt"]

/-- DeviceController.edl_rawprogram: requires both tool executables,
then STEP 1/2 loads the programmer via load_firehose_programmer (whose
failure propagates) and only then STEP 2/2 builds and runs the Firehose
invocation. -/
def edl_rawprogram (env : Env) (loaderPath memType : String)
    (rawXmls patchXmls : List String) (port : String) :
    Except PyErr Unit × List (List String) :=
  if env.qsaharaExists && env.fhLoaderExists then
    match load_firehose_programmer env loaderPath port with
    | (.error e, t) => (.error e, t)
    | (.ok _, t) =>
      let cmd := fhFlashCmd (parentDir loaderPath)
        (String.intercalate "," (rawXmls.map baseName))
        (String.intercalate "," (patchXmls.map baseName)) memType port
      match (run_command env cmd true false).result with
      | .error e => (.error e, t ++ [cmd])
      | .ok _ => (.ok (), t ++ [cmd])
  else
    (.error (.fileNotFound "Missing fh_loader and Qsaharaserver executables"), [])

/- ------------------------------------------------------------------ -/
/- Helper lemmas                                                      -/
/- ------------------------------------------------------------------ -/

theorem containsSub_empty_hay (s pat : String) (hs : s.data = [])
    (hp : pat.data ≠ []) : containsSub s pat = false := by
  unfold containsSub
  rw [hs]
  cases hpat : pat.data with
  | nil => exact absurd hpat hp
  | cons c cs => simp [listContainsSub, hpat]

theorem pyTruthy_false_data (od : Option String) (h : pyTruthyOpt od = false) :
    (od.getD "").data = [] := by
  cases od with
  | none => rfl
  | some t =>
    cases t with
    | mk d =>
      cases d with
      | nil => rfl
      | cons c cs => simp [pyTruthyOpt, pyTruthyStr] at h

theorem pyUpper_data (s : String) : (pyUpper s).data = s.data.map Char.toUpper := rfl

theorem guard_redundant (od : Option String) (pat1 pat2 : String)
    (h1 : pat1.data ≠ []) :
    (pyTruthyOpt od && (containsSub (od.getD "") pat1 && containsSub (od.getD "") pat2))
      = (containsSub (od.getD "") pat1 && containsSub (od.getD "") pat2) := by
  cases ht : pyTruthyOpt od with
  | false =>
    rw [containsSub_empty_hay _ _ (pyTruthy_false_data od ht) h1]
    simp
  | true => simp

theorem guard_redundant_upper (oh : Option String) (pat : String)
    (h1 : pat.data ≠ []) :
    (pyTruthyOpt oh && containsSub (pyUpper (oh.getD "")) pat)
      = containsSub (pyUpper (oh.getD "")) pat := by
  cases ht : pyTruthyOpt oh with
  | false =>
    have hd : (pyUpper (oh.getD "")).data = [] := by
      rw [pyUpper_data, pyTruthy_false_data oh ht]
      rfl
    rw [containsSub_empty_hay _ _ hd h1]
    simp
  | true => simp

/-- The Python truthiness guards in check_edl_device are redundant: the
per-port classification agrees with the spec predicate. -/
theorem is_qualcomm_port_eq (p : PortInfo) :
    is_qualcomm_port p = find_edl_port_pred p := by
  unfold is_qualcomm_port find_edl_port_pred
  rw [guard_redundant p.description "Qualcomm" "9008" (by decide),
      guard_redundant_upper p.hwid "VID:PID=05C6:9008" (by decide)]

theorem check_edl_device_eq_find (ports : List PortInfo) :
    check_edl_device ports = find_edl_port ports := by
  induction ports with
  | nil => rfl
  | cons p ps ih =>
    simp only [check_edl_device, find_edl_port, List.find?, is_qualcomm_port_eq p]
    cases h : find_edl_port_pred p with
    | true => simp
    | false => simpa [find_edl_port] using ih

/- ------------------------------------------------------------------ -/
/- C2                                                                 -/
/- ------------------------------------------------------------------ -/

/-- C2: for every list of ports, check_edl_device returns the device
path of the first port satisfying the spec predicate (description
contains both "Qualcomm" and "9008" case-sensitively, or the upper-cased
hardware id contains "VID:PID=05C6:9008"), and returns None exactly when
no port matches. -/
theorem C2_check_edl_device_first_match (ports : List PortInfo) :
    check_edl_device ports = find_edl_port ports ∧
    (check_edl_device ports = none ↔ ∀ p ∈ ports, find_edl_port_pred p = false) := by
  refine ⟨check_edl_device_eq_find ports, ?_⟩
  rw [check_edl_device_eq_find ports]
  unfold find_edl_port
  rw [Option.map_eq_none']
  rw [List.find?_eq_none]
  simp

/-- C2 witness: the theorem applied to a concrete two-port list; the
second port is the first EDL match and its device path is returned. -/
theorem C2_check_edl_device_first_match_witness :
    (check_edl_device
        [⟨"COM1", some "Some UART Bridge", some "USB VID:PID=10C4:EA60"⟩,
         ⟨"COM3", some "Qualcomm HS-USB QDLoader 9008", some "USB VID:PID=05C6:9008"⟩]
      = find_edl_port
        [⟨"COM1", some "Some UART Bridge", some "USB VID:PID=10C4:EA60"⟩,
         ⟨"COM3", some "Qualcomm HS-USB QDLoader 9008", some "USB VID:PID=05C6:9008"⟩]) ∧
    (check_edl_device
        [⟨"COM1", some "Some UART Bridge", some "USB VID:PID=10C4:EA60"⟩,
         ⟨"COM3", some "Qualcomm HS-USB QDLoader 9008", some "USB VID:PID=05C6:9008"⟩]
      = some "COM3") := by
  constructor
  · exact (C2_check_edl_device_first_match _).1
  · decide

/- ------------------------------------------------------------------ -/
/- C4                                                                 -/
/- ------------------------------------------------------------------ -/

theorem wait_loop_edl_spec (front : List (Option String)) (v : String)
    (h : ∀ x ∈ front, x = none) :
    wait_loop_edl (front ++ [some v]) = some (v, front.length + 1, front.length) := by
  induction front with
  | nil => rfl
  | cons a rest ih =>
    have ha : a = none := h a (by simp)
    subst ha
    simp only [List.cons_append, wait_loop_edl, List.append_eq]
    rw [ih (fun x hx => h x (by simp [hx]))]
    simp

theorem wait_loop_fastboot_spec (n : Nat) :
    wait_loop_fastboot (List.replicate n false ++ [true]) = some (n + 1, n) := by
  induction n with
  | zero => rfl
  | succ m ih =>
    simp only [List.replicate, List.cons_append, wait_loop_fastboot, List.append_eq]
    rw [ih]
    simp

/-- C4 (amended): for every detector sequence consisting of failures
followed by one present value, wait_for_edl returns exactly that value
after exactly one detector invocation per sequence element (no more than
necessary); the number of sleeps is one per failed attempt except the
first (the initial non-silent check precedes the while loop), i.e.
`failures - 1` in truncated subtraction.  The same holds for
wait_for_fastboot, whose present value is the returned True. -/
theorem C4_wait_loops_return_value (front : List (Option String)) (v : String)
    (n : Nat) (h : ∀ x ∈ front, x = none) :
    wait_for_edl (front ++ [some v]) = some (v, front.length + 1, front.length - 1) ∧
    wait_for_fastboot (List.replicate n false ++ [true]) = some (n + 1, n - 1) := by
  constructor
  · cases front with
    | nil => rfl
    | cons a rest =>
      have ha : a = none := h a (by simp)
      subst ha
      simp only [List.cons_append, wait_for_edl, List.append_eq]
      rw [wait_loop_edl_spec rest v (fun x hx => h x (by simp [hx]))]
      simp
  · cases n with
    | zero => rfl
    | succ m =>
      simp only [List.replicate, List.cons_append, wait_for_fastboot, List.append_eq]
      rw [wait_loop_fastboot_spec m]
      simp

/-- C4 witness: one failure then success; 2 detector calls, 0 sleeps. -/
theorem C4_wait_loops_return_value_witness :
    wait_for_edl ([none] ++ [some "COM9"]) = some ("COM9", 2, 0) ∧
    wait_for_fastboot (List.replicate 1 false ++ [true]) = some (2, 0) :=
  C4_wait_loops_return_value [none] "COM9" 1 (by simp)

/-- C4 counterexample: for the detector sequence [None, None, "COM7"]
the claim asserts exactly 2 sleeps, but wait_for_edl performs exactly 1
sleep (the initial check happens before the while loop, and only failed
while-loop checks are followed by a sleep). -/
theorem C4_counterexample :
    wait_for_edl [none, none, some "COM7"] = some ("COM7", 3, 1) ∧ (1 : Nat) ≠ 2 := by
  exact ⟨rfl, by decide⟩

/- ------------------------------------------------------------------ -/
/- C9                                                                 -/
/- ------------------------------------------------------------------ -/

/-- C9: the ADB slot-suffix path returns None with a warning for every
raw value whose stripped form is not "_a"/"_b" (e.g. "c"), and the two
query paths accept different shapes: the ADB path accepts only
"_a"/"_b", while the Fastboot path accepts bare "a"/"b" and maps them to
"_a"/"_b" (and rejects "_a"). -/
theorem C9_slot_suffix_paths :
    (∀ raw s w, get_active_slot_suffix raw = (some s, w) →
      (s = "_a" ∨ s = "_b") ∧ w = false) ∧
    (∀ raw, pyStrip raw ≠ "_a" → pyStrip raw ≠ "_b" →
      get_active_slot_suffix raw = (none, true)) ∧
    (∀ sout serr s, get_active_slot_suffix_from_fastboot sout serr = some s →
      s = "_a" ∨ s = "_b") ∧
    get_active_slot_suffix "c" = (none, true) ∧
    get_active_slot_suffix "a" = (none, true) ∧
    get_active_slot_suffix "_a" = (some "_a", false) ∧
    get_active_slot_suffix_from_fastboot "current-slot: a" "" = some "_a" ∧
    get_active_slot_suffix_from_fastboot "current-slot: b" "" = some "_b" ∧
    get_active_slot_suffix_from_fastboot "current-slot: _a" "" = none := by
  refine ⟨?_, ?_, ?_, by decide, by decide, by decide, by decide, by decide, by decide⟩
  · intro raw s w h
    simp only [get_active_slot_suffix] at h
    by_cases hc : (pyStrip raw = "_a" ∨ pyStrip raw = "_b")
    · rw [if_pos (by simpa using hc)] at h
      simp only [Prod.mk.injEq, Option.some.injEq] at h
      obtain ⟨h1, h2⟩ := h
      exact ⟨h1 ▸ hc, h2.symm⟩
    · rw [if_neg (by simpa using hc)] at h
      simp at h
  · intro raw h1 h2
    simp only [get_active_slot_suffix]
    rw [if_neg (by simp [h1, h2])]
  · intro sout serr s h
    simp only [get_active_slot_suffix_from_fastboot] at h
    cases hs : searchSlot (pyStrip serr ++ "\n" ++ pyStrip sout).data with
    | none => rw [hs] at h; simp at h
    | some sc =>
      rw [hs] at h
      simp only [Option.ite_none_right_eq_some, Option.some.injEq, Bool.or_eq_true,
        decide_eq_true_eq] at h
      obtain ⟨hcond, h2⟩ := h
      rcases hcond with hx | hx
      · left; rw [← h2, hx]; decide
      · right; rw [← h2, hx]; decide

/-- C9 witness: the generic conjuncts applied at "c" and at a matching
Fastboot output line. -/
theorem C9_slot_suffix_paths_witness :
    get_active_slot_suffix "c" = (none, true) ∧
    ("_a" = "_a" ∨ "_a" = "_b") := by
  refine ⟨C9_slot_suffix_paths.2.1 "c" (by decide) (by decide), ?_⟩
  exact C9_slot_suffix_paths.2.2.1 "current-slot: a" "" "_a" (by decide)

/- ------------------------------------------------------------------ -/
/- C10                                                                -/
/- ------------------------------------------------------------------ -/

/-- C10: the detectors are total at their interface: an exception from
the port enumeration makes check_edl_device return None, a failure to
launch the fastboot tool makes check_fastboot_device return False, and
on a completed enumeration/invocation they return the scan result
resp. the truthiness of the stripped stdout. -/
theorem C10_detectors_total :
    (∀ e, check_edl_device_caught (Except.error e) = none) ∧
    (∀ ports, check_edl_device_caught (Except.ok ports) = check_edl_device ports) ∧
    (∀ env f, env.exec FB_DEVICES_CMD = ExecResult.notFound f →
      check_fastboot_device env = false) ∧
    (∀ env code out err, env.exec FB_DEVICES_CMD = ExecResult.completed code out err →
      check_fastboot_device env = pyTruthyStr (pyStrip out)) := by
  refine ⟨fun e => rfl, fun ports => rfl, ?_, ?_⟩
  · intro env f h
    simp [check_fastboot_device, run_command, h]
  · intro env code out err h
    simp [check_fastboot_device, run_command, h]

/-- C10 witness: a raising enumeration yields None, a missing fastboot
executable yields False. -/
theorem C10_detectors_total_witness :
    check_edl_device_caught (Except.error (.fileNotFound "pyserial failure")) = none ∧
    check_fastboot_device
      (⟨fun _ => .notFound "fastboot.exe", .ok [], true, true, []⟩ : Env) = false :=
  ⟨C10_detectors_total.1 _, C10_detectors_total.2.2.1 _ "fastboot.exe" rfl⟩

/- ------------------------------------------------------------------ -/
/- C5                                                                 -/
/- ------------------------------------------------------------------ -/

/-- C5 (amended): whenever run_command returns normally it echoes
nothing itself: with capture_output=False the CompletedProcess stdout /
stderr attributes are None (the child streams were inherited, not
collected), so the echo-after-strip branch never fires; with
capture_output=True the content is returned in the CompletedProcess and
not echoed. -/
theorem C5_run_command_capture_echo (env : Env) (cmd : List String)
    (check capture : Bool) (p : CompletedProcess)
    (h : (run_command env cmd check capture).result = .ok p) :
    (run_command env cmd check capture).echoedOut = [] ∧
    (run_command env cmd check capture).echoedErr = [] ∧
    (capture = false → p.stdout = none ∧ p.stderr = none) ∧
    (capture = true → ∃ code out err, env.exec cmd = .completed code out err ∧
      p.stdout = some out ∧ p.stderr = some err ∧ p.returncode = code) := by
  cases hx : env.exec cmd with
  | notFound f => simp [run_command, hx] at h
  | completed code out err =>
    by_cases hc : (check && !(code == 0)) = true
    · simp [run_command, hx, hc] at h
    · have hb : (check && !(code == 0)) = false := by simpa using hc
      cases capture with
      | false =>
        simp only [run_command, hx, hb, Bool.false_eq_true, if_false,
          Except.ok.injEq] at h
        refine ⟨?_, ?_, fun _ => ?_, fun hcap => by simp at hcap⟩
        · simp [run_command, hx, hb, pyTruthyOpt]
        · simp [run_command, hx, hb, pyTruthyOpt]
        · rw [← h]
          exact ⟨rfl, rfl⟩
      | true =>
        simp only [run_command, hx, hb, Bool.false_eq_true, if_false,
          Except.ok.injEq] at h
        refine ⟨?_, ?_, fun hcap => by simp at hcap, fun _ => ?_⟩
        · simp [run_command, hx, hb]
        · simp [run_command, hx, hb]
        · refine ⟨code, out, err, rfl, ?_, ?_, ?_⟩ <;> rw [← h] <;> simp

/-- C5 witness: a capturing run with child output "hello" returns the
content and echoes nothing. -/
theorem C5_run_command_capture_echo_witness :
    (run_command (⟨fun _ => .completed 0 "hello\n" "err\n", .ok [], true, true, []⟩ : Env)
        ["sometool"] true true).echoedOut = [] ∧
    (run_command (⟨fun _ => .completed 0 "hello\n" "err\n", .ok [], true, true, []⟩ : Env)
        ["sometool"] true true).echoedErr = [] ∧
    (true = false →
      (⟨some "hello\n", some "err\n", 0⟩ : CompletedProcess).stdout = none ∧
      (⟨some "hello\n", some "err\n", 0⟩ : CompletedProcess).stderr = none) ∧
    (true = true → ∃ code out err,
      (⟨fun _ => .completed 0 "hello\n" "err\n", .ok [], true, true, []⟩ : Env).exec
          ["sometool"] = .completed code out err ∧
      (⟨some "hello\n", some "err\n", 0⟩ : CompletedProcess).stdout = some out ∧
      (⟨some "hello\n", some "err\n", 0⟩ : CompletedProcess).stderr = some err ∧
      (⟨some "hello\n", some "err\n", 0⟩ : CompletedProcess).returncode = code) :=
  C5_run_command_capture_echo _ ["sometool"] true true ⟨some "hello\n", some "err\n", 0⟩ rfl

/-- C5 counterexample: a non-capturing run whose child wrote "hello\n"
to stdout; the claim says run_command echoes the trimmed content
("hello"), but run_command echoes nothing (subprocess.run returned
stdout=None since capture_output was False). -/
theorem C5_counterexample :
    (run_command (⟨fun _ => .completed 0 "hello\n" "err\n", .ok [], true, true, []⟩ : Env)
        ["sometool"] true false).echoedOut = [] ∧
    pyStrip "hello\n" = "hello" ∧
    ([] : List String) ≠ ["hello"] := by
  refine ⟨rfl, by decide, by decide⟩

/- ------------------------------------------------------------------ -/
/- Shared lemmas for the Device Session functions                     -/
/- ------------------------------------------------------------------ -/

theorem run_command_ok_of_execOk (env : Env) (cmd : List String)
    (h : execOkB env cmd = true) :
    (run_command env cmd true false).result = .ok ⟨none, none, 0⟩ := by
  cases hx : env.exec cmd with
  | notFound f => simp [execOkB, hx] at h
  | completed code out err =>
    have hcode : code = 0 := by simpa [execOkB, hx] using h
    subst hcode
    simp [run_command, hx]

theorem call_wait_for_files_lang (body : Option (Except PyErr Bool)) :
    call_wait_for_files ["lang"] body =
      some (.error (.typeError WAIT_FOR_FILES_TYPE_ERR)) := rfl

theorem setup_fst (ctl : Ctl) (env : Env) :
    (setup_edl_connection ctl env).1 =
      match (setup_pre ctl env).1 with
      | .error e => some (.error e)
      | .ok _ => some (.error (.typeError WAIT_FOR_FILES_TYPE_ERR)) := by
  rcases hp : setup_pre ctl env with ⟨res, t⟩
  cases res with
  | error e => simp [setup_edl_connection, hp]
  | ok u => simp [setup_edl_connection, hp, call_wait_for_files_lang]

theorem setup_snd (ctl : Ctl) (env : Env) :
    (setup_edl_connection ctl env).2 = (setup_pre ctl env).2 := by
  rcases hp : setup_pre ctl env with ⟨res, t⟩
  cases res with
  | error e => simp [setup_edl_connection, hp]
  | ok u => simp [setup_edl_connection, hp, call_wait_for_files_lang]

theorem setup_pre_ok (ctl : Ctl) (env : Env)
    (h : (check_edl_device_caught env.ports).isSome = true ∨ ctl.skipAdb = true ∨
      execOkB env ADB_WAIT_CMD = true) :
    (setup_pre ctl env).1 = .ok () := by
  cases hdet : check_edl_device_caught env.ports with
  | some p => simp [setup_pre, hdet]
  | none =>
    cases hskip : ctl.skipAdb with
    | true => simp [setup_pre, hdet, hskip, reboot_to_edl, wait_for_adb]
    | false =>
      rcases h with h | h | h
      · rw [hdet] at h; simp at h
      · rw [hskip] at h; simp at h
      · have hrun := run_command_ok_of_execOk env ADB_WAIT_CMD h
        simp [setup_pre, hdet, hskip, wait_for_adb, hrun, reboot_to_edl]

/- ------------------------------------------------------------------ -/
/- C3                                                                 -/
/- ------------------------------------------------------------------ -/

/-- C3: setup_edl_connection can never return an EDL port (and never
even reaches the port wait): whenever the steps before the loader-file
wait succeed — the device is already in EDL, or ADB is skipped, or the
`adb wait-for-device` command succeeds — the call
`utils.wait_for_files(IMAGE_DIR, required_files, prompt, lang=...)`
raises TypeError, because wait_for_files(directory, required_files,
prompt_message) accepts no `lang` keyword; any other outcome is an
earlier exception. -/
theorem C3_setup_edl_connection_type_error (ctl : Ctl) (env : Env) :
    (setup_edl_connection ctl env).1 ≠ none ∧
    (∀ port, (setup_edl_connection ctl env).1 ≠ some (.ok port)) ∧
    ((check_edl_device_caught env.ports).isSome = true ∨ ctl.skipAdb = true ∨
        execOkB env ADB_WAIT_CMD = true →
      (setup_edl_connection ctl env).1 =
        some (.error (.typeError WAIT_FOR_FILES_TYPE_ERR))) := by
  rw [setup_fst ctl env]
  cases hres : (setup_pre ctl env).1 with
  | error e =>
    refine ⟨by simp, fun port => by simp, fun h => ?_⟩
    have := setup_pre_ok ctl env h
    rw [hres] at this
    simp at this
  | ok u =>
    exact ⟨by simp, fun port => by simp, fun _ => rfl⟩

/-- C3 witness: with ADB skipped (so the pre-steps trivially succeed)
the call fails with the TypeError from the unexpected `lang` keyword. -/
theorem C3_setup_edl_connection_type_error_witness :
    (setup_edl_connection ⟨true⟩
        (⟨fun _ => .completed 0 "" "", .ok [], true, true, [true]⟩ : Env)).1 =
      some (.error (.typeError WAIT_FOR_FILES_TYPE_ERR)) :=
  (C3_setup_edl_connection_type_error ⟨true⟩
      (⟨fun _ => .completed 0 "" "", .ok [], true, true, [true]⟩ : Env)).2.2
    (Or.inr (Or.inl rfl))

/- ------------------------------------------------------------------ -/
/- C6                                                                 -/
/- ------------------------------------------------------------------ -/

/-- C6: when a device is already detected in EDL mode at entry,
setup_edl_connection runs no command at all before the loader wait — in
particular zero ADB reboot commands are issued, so repeated calls in the
EDL-detected state issue zero reboots each. -/
theorem C6_setup_edl_skips_reboot (ctl : Ctl) (env : Env)
    (h : (check_edl_device_caught env.ports).isSome = true) :
    (setup_edl_connection ctl env).2 = [] ∧
    (setup_edl_connection ctl env).2.count ADB_REBOOT_EDL_CMD = 0 := by
  have h2 := setup_snd ctl env
  cases hdet : check_edl_device_caught env.ports with
  | none => rw [hdet] at h; simp at h
  | some p =>
    have hpre : setup_pre ctl env = (.ok (), []) := by simp [setup_pre, hdet]
    rw [h2, hpre]
    exact ⟨rfl, rfl⟩

/-- C6 witness: an EDL port is present at entry; no commands are run. -/
theorem C6_setup_edl_skips_reboot_witness :
    (setup_edl_connection ⟨false⟩
        (⟨fun _ => .completed 0 "" "",
          .ok [⟨"COM3", some "Qualcomm HS-USB QDLoader 9008", some "USB VID:PID=05C6:9008"⟩],
          true, true, [true]⟩ : Env)).2 = [] ∧
    (setup_edl_connection ⟨false⟩
        (⟨fun _ => .completed 0 "" "",
          .ok [⟨"COM3", some "Qualcomm HS-USB QDLoader 9008", some "USB VID:PID=05C6:9008"⟩],
          true, true, [true]⟩ : Env)).2.count ADB_REBOOT_EDL_CMD = 0 :=
  C6_setup_edl_skips_reboot ⟨false⟩ _ (by decide)

/- ------------------------------------------------------------------ -/
/- C7                                                                 -/
/- ------------------------------------------------------------------ -/

/-- C7: in get_fastboot_vars with ADB not skipped, if the pre-steps
succeed and the `fastboot getvar all` retrieval fails, the stage still
runs the return-to-system `fastboot reboot` (whose own outcome is
irrelevant — the environment leaves it unconstrained and its failure is
swallowed) and re-raises the original retrieval failure. -/
theorem C7_get_fastboot_vars_cleanup (ctl : Ctl) (env : Env) (f : String)
    (hskip : ctl.skipAdb = false)
    (hadbw : execOkB env ADB_WAIT_CMD = true)
    (hadbr : execOkB env ADB_REBOOT_BL_CMD = true)
    (hfb : check_fastboot_device env = true)
    (hget : env.exec FB_GETVAR_ALL_CMD = .notFound f) :
    (get_fastboot_vars ctl env).1 = some (.error (.fileNotFound f)) ∧
    FB_REBOOT_CMD ∈ (get_fastboot_vars ctl env).2 := by
  have hw := run_command_ok_of_execOk env ADB_WAIT_CMD hadbw
  have hr := run_command_ok_of_execOk env ADB_REBOOT_BL_CMD hadbr
  have hg : (run_command env FB_GETVAR_ALL_CMD false true).result =
      .error (.fileNotFound f) := by
    simp [run_command, hget]
  constructor
  · simp [get_fastboot_vars, hskip, reboot_to_bootloader, wait_for_adb, hw, hr, hfb,
      hg, fastboot_reboot_system]
  · simp [get_fastboot_vars, hskip, reboot_to_bootloader, wait_for_adb, hw, hr, hfb,
      hg, fastboot_reboot_system]

/-- C7 witness: a concrete environment in which the fastboot tool
vanishes at the getvar step and the cleanup reboot itself fails
(exit code 1); the original failure is still the result. -/
theorem C7_get_fastboot_vars_cleanup_witness :
    (get_fastboot_vars ⟨false⟩
        (⟨fun cmd =>
            if cmd = FB_GETVAR_ALL_CMD then .notFound "fastboot"
            else if cmd = FB_REBOOT_CMD then .completed 1 "" "reboot failed"
            else .completed 0 "0123456789ABCDEF  fastboot" "",
          .ok [], true, true, []⟩ : Env)).1 =
      some (.error (.fileNotFound "fastboot")) ∧
    FB_REBOOT_CMD ∈ (get_fastboot_vars ⟨false⟩
        (⟨fun cmd =>
            if cmd = FB_GETVAR_ALL_CMD then .notFound "fastboot"
            else if cmd = FB_REBOOT_CMD then .completed 1 "" "reboot failed"
            else .completed 0 "0123456789ABCDEF  fastboot" "",
          .ok [], true, true, []⟩ : Env)).2 :=
  C7_get_fastboot_vars_cleanup ⟨false⟩ _ "fastboot" rfl (by decide) (by decide)
    (by decide) (by decide)

/- ------------------------------------------------------------------ -/
/- C1                                                                 -/
/- ------------------------------------------------------------------ -/

theorem load_firehose_trace (env : Env) (loader port : String)
    (h : env.qsaharaExists = true) :
    (load_firehose_programmer env loader port).2 = [saharaCmd loader port] := by
  simp only [load_firehose_programmer, h, if_true]
  cases hr : (run_command env (saharaCmd loader port) true false).result <;> simp [hr]

/-- C1: if the Sahara programmer-upload step fails, edl_rawprogram
propagates the failure and its executed-command trace never contains an
fh_loader invocation: step 2 is not attempted. -/
theorem C1_sahara_failure_short_circuits (env : Env) (loaderPath memType : String)
    (rawXmls patchXmls : List String) (port : String) (e : PyErr)
    (h : (load_firehose_programmer env loaderPath port).1 = .error e) :
    (∃ e2, (edl_rawprogram env loaderPath memType rawXmls patchXmls port).1 =
      .error e2) ∧
    (∀ c ∈ (edl_rawprogram env loaderPath memType rawXmls patchXmls port).2,
      c.head? ≠ some FH_LOADER_EXE) := by
  by_cases hq : (env.qsaharaExists && env.fhLoaderExists) = true
  · have hq1 : env.qsaharaExists = true := by
      rcases Bool.and_eq_true_iff.mp hq with ⟨h1, _⟩
      exact h1
    have ht := load_firehose_trace env loaderPath port hq1
    rcases hl : load_firehose_programmer env loaderPath port with ⟨res, tr⟩
    rw [hl] at h ht
    simp only at h ht
    subst h
    subst ht
    constructor
    · exact ⟨e, by simp [edl_rawprogram, hq, hl]⟩
    · intro c hc
      have hc2 : c = saharaCmd loaderPath port := by
        have htr : (edl_rawprogram env loaderPath memType rawXmls patchXmls port).2 =
            [saharaCmd loaderPath port] := by
          simp [edl_rawprogram, hq, hl]
        rw [htr] at hc
        simpa using hc
      rw [hc2]
      simp [saharaCmd]
      decide
  · have hq2 : (env.qsaharaExists && env.fhLoaderExists) = false := by
      simpa using hq
    constructor
    · exact ⟨.fileNotFound "Missing fh_loader and Qsaharaserver executables",
        by simp [edl_rawprogram, hq2]⟩
    · intro c hc
      simp [edl_rawprogram, hq2] at hc

/-- C1 witness: both executables exist, the Sahara invocation exits with
code 1; edl_rawprogram fails and never runs an fh_loader command. -/
theorem C1_sahara_failure_short_circuits_witness :
    (∃ e2, (edl_rawprogram
        (⟨fun _ => .completed 1 "" "", .ok [], true, true, []⟩ : Env)
        "fw/prog_firehose.mbn" "UFS" ["rawprogram0.xml"] ["patch0.xml"] "COM7").1 =
      .error e2) ∧
    (∀ c ∈ (edl_rawprogram
        (⟨fun _ => .completed 1 "" "", .ok [], true, true, []⟩ : Env)
        "fw/prog_firehose.mbn" "UFS" ["rawprogram0.xml"] ["patch0.xml"] "COM7").2,
      c.head? ≠ some FH_LOADER_EXE) :=
  C1_sahara_failure_short_circuits _ "fw/prog_firehose.mbn" "UFS" ["rawprogram0.xml"]
    ["patch0.xml"] "COM7" (.calledProcessError 1 none none) rfl

/- ------------------------------------------------------------------ -/
/- C8                                                                 -/
/- ------------------------------------------------------------------ -/

/-- C8: load_firehose_programmer raises FileNotFoundError when the
Sahara-upload executable is absent (running nothing), and otherwise the
invocation it runs is exactly the executable path, "-p" with the port in
raw device-path form, and "-s" with "13:" prepended to the loader
path. -/
theorem C8_load_firehose_programmer_invocation (env : Env) (loader port : String) :
    (env.qsaharaExists = false →
      (load_firehose_programmer env loader port).1 =
        .error (.fileNotFound ("QSaharaServer.exe not found at " ++ QSAHARASERVER_EXE)) ∧
      (load_firehose_programmer env loader port).2 = []) ∧
    (env.qsaharaExists = true →
      (load_firehose_programmer env loader port).2 =
        [[QSAHARASERVER_EXE, "-p", "\\\\.\\" ++ port, "-s", "13:" ++ loader]]) := by
  constructor
  · intro h
    constructor <;> simp [load_firehose_programmer, h]
  · intro h
    have := load_firehose_trace env loader port h
    simpa [saharaCmd] using this

/-- C8 witness: the missing-executable case and the constructed argument
vector for loader "fw/prog_firehose.mbn" on port COM7. -/
theorem C8_load_firehose_programmer_invocation_witness :
    ((load_firehose_programmer
        (⟨fun _ => .completed 0 "" "", .ok [], false, true, []⟩ : Env)
        "fw/prog_firehose.mbn" "COM7").1 =
      .error (.fileNotFound ("QSaharaServer.exe not found at " ++ QSAHARASERVER_EXE)) ∧
     (load_firehose_programmer
        (⟨fun _ => .completed 0 "" "", .ok [], false, true, []⟩ : Env)
        "fw/prog_firehose.mbn" "COM7").2 = []) ∧
    (load_firehose_programmer
        (⟨fun _ => .completed 0 "" "", .ok [], true, true, []⟩ : Env)
        "fw/prog_firehose.mbn" "COM7").2 =
      [[QSAHARASERVER_EXE, "-p", "\\\\.\\" ++ "COM7", "-s", "13:" ++ "fw/prog_firehose.mbn"]] :=
  ⟨(C8_load_firehose_programmer_invocation _ "fw/prog_firehose.mbn" "COM7").1 rfl,
   (C8_load_firehose_programmer_invocation _ "fw/prog_firehose.mbn" "COM7").2 rfl⟩
